import Mathlib

/-!
Verification of the PRIME-PROMPT ROI calculator (src/prime_prompt_app.py).

The program loads a 3-column multiplier table, looks up the row whose
`day` equals the chosen day, computes a holding/locking ROI comparison
with `calculate_roi`, and classifies the result against 1.0.

Prices and multipliers are modelled as rationals (the Python code uses
floats; the claims under examination are exact-arithmetic statements
about the formulas and control flow, not about rounding).
-/

namespace PrimePrompt

/-- Embedding of `calculate_roi` (src/prime_prompt_app.py lines 19-42).
Returns the tuple `(holding_value, locking_value, roi_ratio)` exactly as
the Python function does: `holding_value = token1_price`,
`total_token2_reward = 396 * day_multiplier`,
`locking_value = total_token2_reward * token2_price`, and
`roi_ratio = locking_value / holding_value` guarded to `0` when
`holding_value = 0`. -/
def calculate_roi (token1_price token2_price day_multiplier : ℚ) : ℚ × ℚ × ℚ :=
  let holding_value := token1_price
  let total_token2_reward := 396 * day_multiplier
  let locking_value := total_token2_reward * token2_price
  let roi_ratio := if holding_value ≠ 0 then locking_value / holding_value else 0
  (holding_value, locking_value, roi_ratio)

/-- One row of the multiplier table after `load_multiplier_data` renames
the columns to `day`, `int_col`, `multiplier`. -/
structure MultiplierRow where
  day : Int
  int_col : Int
  multiplier : ℚ
deriving DecidableEq, Repr

/-- Embedding of the row lookup in `main` (lines 64-69):
`row = df.loc[df['day'] == chosen_day]` followed by
`row['multiplier'].iloc[0]`, i.e. filter on exact integer equality of the
`day` field and take the first row of the filtered frame. -/
def find_row (df : List MultiplierRow) (chosen_day : Int) : Option MultiplierRow :=
  (df.filter (fun r => r.day == chosen_day)).head?

/-- The qualitative verdict printed by `main` (lines 84-89). -/
inductive Verdict where
  | lockingWins
  | holdingWins
  | breakEven
deriving DecidableEq, Repr

/-- Embedding of the classification in `main` (lines 84-89):
`roi_ratio > 1` yields the locking-wins message, `roi_ratio < 1` the
holding-wins message, and otherwise (exact equality with 1) break-even. -/
def verdict_of (roi_ratio : ℚ) : Verdict :=
  if roi_ratio > 1 then Verdict.lockingWins
  else if roi_ratio < 1 then Verdict.holdingWins
  else Verdict.breakEven

/-- The displayed result of one query in `main`: the looked-up
multiplier, the three values from `calculate_roi`, and the verdict. -/
structure QueryOutput where
  day_multiplier : ℚ
  holding_value : ℚ
  locking_value : ℚ
  roi_ratio : ℚ
  verdict : Verdict
deriving DecidableEq, Repr

/-- Embedding of the per-query computation of `main` (lines 64-89): if no
row matches the chosen day, `main` reports an error and returns without
calling `calculate_roi` (modelled as `none`); otherwise the first
matching row's multiplier feeds `calculate_roi` and the verdict is taken
on the resulting `roi_ratio`. -/
def run_query (df : List MultiplierRow) (token1_price token2_price : ℚ)
    (chosen_day : Int) : Option QueryOutput :=
  match find_row df chosen_day with
  | none => none
  | some row =>
      let day_multiplier := row.multiplier
      let r := calculate_roi token1_price token2_price day_multiplier
      some ⟨day_multiplier, r.1, r.2.1, r.2.2, verdict_of r.2.2⟩

/-- Two rows that agree on `day` and `multiplier` and may differ only in
the unused second column `int_col`. -/
def SameButIntCol (r s : MultiplierRow) : Prop :=
  r.day = s.day ∧ r.multiplier = s.multiplier

/-- A load error of the table loader. `load_multiplier_data` calls
`pd.read_csv(csv_path, header=None)` (which fails when the file is
missing or the rows cannot be tokenised into a rectangular frame) and
then assigns the three column names (which fails when the frame's column
count differs from 3). -/
inductive DataLoadError where
  | sourceMissing
  | malformed
  | columnCountMismatch (found : Nat)
deriving DecidableEq, Repr

/-- Model of `pd.read_csv(csv_path, header=None)` (line 15 of the
source). The source is `none` when the file is missing (FileNotFoundError),
an empty list of records is malformed (EmptyDataError), and a record
with more fields than the first record is malformed (ParserError);
otherwise the records are returned and the column count is the first
record's field count (records with fewer fields are padded by pandas,
which does not change the column count). -/
def read_csv (src : Option (List (List String))) :
    Except DataLoadError (List (List String)) :=
  match src with
  | none => Except.error DataLoadError.sourceMissing
  | some [] => Except.error DataLoadError.malformed
  | some (r0 :: rs) =>
      if (r0 :: rs).all (fun row => row.length ≤ r0.length) then
        Except.ok (r0 :: rs)
      else Except.error DataLoadError.malformed

/-- Column count of a loaded frame: the first record's field count. -/
def table_ncols : List (List String) → Nat
  | [] => 0
  | r0 :: _ => r0.length

/-- Embedding of `load_multiplier_data` (lines 7-17 of the source):
read the CSV with `read_csv`, then perform the column rename
`df.columns = ['day', 'int_col', 'multiplier']`, which pandas accepts
exactly when the frame has 3 columns and rejects (ValueError) for any
other column count. On success the records are returned together with
the renamed column labels. -/
def load_multiplier_data (src : Option (List (List String))) :
    Except DataLoadError (List (List String) × List String) :=
  match read_csv src with
  | Except.error e => Except.error e
  | Except.ok df =>
      if table_ncols df = 3 then
        Except.ok (df, ["day", "int_col", "multiplier"])
      else Except.error (DataLoadError.columnCountMismatch (table_ncols df))

/-- A source is malformed when it parses to no records at all or some
record has more fields than the first. -/
def source_malformed (src : Option (List (List String))) : Bool :=
  match src with
  | none => false
  | some [] => true
  | some (r0 :: rs) => !((r0 :: rs).all (fun row => row.length ≤ r0.length))

/-- Column count of a source (0 when missing or empty). -/
def source_ncols (src : Option (List (List String))) : Nat :=
  match src with
  | none => 0
  | some df => table_ncols df

/-- C1: for input (price_a=2.94, price_b=0.5, multiplier=9.615405784),
`calculate_roi` returns holding_value = 2.94, locking_value =
396 * 9.615405784 * 0.5 (≈ 1903.85), and roi_ratio ≈ 647.57: the code
uses the baseline-396 convention. -/
theorem C1_calculate_roi_baseline396_example :
    (calculate_roi (294/100) (1/2) (9615405784/1000000000)).1 = 294/100 ∧
    (calculate_roi (294/100) (1/2) (9615405784/1000000000)).2.1
      = 396 * (9615405784/1000000000) * (1/2) ∧
    |(calculate_roi (294/100) (1/2) (9615405784/1000000000)).2.1 - 190385/100| < 1/100 ∧
    |(calculate_roi (294/100) (1/2) (9615405784/1000000000)).2.2 - 64757/100| < 1/100 := by
  refine ⟨rfl, by norm_num [calculate_roi], ?_, ?_⟩ <;>
    · simp only [calculate_roi]
      rw [abs_lt]
      norm_num

/-- C3: `calculate_roi 0 p2 m` yields roi_ratio = 0 (the zero-guard,
instead of a division error), and whenever holding_value ≠ 0 the
roi_ratio equals locking_value / holding_value. -/
theorem C3_zero_guard (p1 p2 m : ℚ) :
    (calculate_roi 0 p2 m).2.2 = 0 ∧
    (p1 ≠ 0 →
      (calculate_roi p1 p2 m).2.2 = (calculate_roi p1 p2 m).2.1 / p1) := by
  constructor
  · simp [calculate_roi]
  · intro h
    simp [calculate_roi, h]

/-- C3 witness: the zero-guard and the division formula at concrete
inputs. -/
theorem C3_zero_guard_witness :
    (calculate_roi 0 (1/2) 3).2.2 = 0 ∧
    (calculate_roi 2 (1/2) 3).2.2 = (calculate_roi 2 (1/2) 3).2.1 / 2 :=
  ⟨(C3_zero_guard 2 (1/2) 3).1, (C3_zero_guard 2 (1/2) 3).2 (by norm_num)⟩

/-- C7: with price_b = 0, `calculate_roi` returns locking_value = 0 and
roi_ratio = 0 for every price_a and multiplier. -/
theorem C7_zero_price_b (p1 m : ℚ) :
    (calculate_roi p1 0 m).2.1 = 0 ∧ (calculate_roi p1 0 m).2.2 = 0 := by
  by_cases h : p1 = 0 <;> simp [calculate_roi, h]

/-- C10: `calculate_roi` is homogeneous in price_b and in the
multiplier: scaling price_b by k scales locking_value and roi_ratio by
k, scaling the multiplier by k scales locking_value and roi_ratio by k,
and locking_value equals 396 * m * price_b. -/
theorem C10_homogeneous (p1 p2 m k : ℚ) :
    (calculate_roi p1 (k * p2) m).2.1 = k * (calculate_roi p1 p2 m).2.1 ∧
    (calculate_roi p1 (k * p2) m).2.2 = k * (calculate_roi p1 p2 m).2.2 ∧
    (calculate_roi p1 p2 (k * m)).2.1 = k * (calculate_roi p1 p2 m).2.1 ∧
    (calculate_roi p1 p2 (k * m)).2.2 = k * (calculate_roi p1 p2 m).2.2 ∧
    (calculate_roi p1 p2 m).2.1 = 396 * m * p2 := by
  refine ⟨?_, ?_, ?_, ?_, ?_⟩ <;>
    by_cases h : p1 = 0 <;> simp [calculate_roi, h] <;> ring

/-- C2 counterexample: at the input (2.94, 0.5, 9.615405784) the code
does NOT return locking_value = 9.615405784 * 0.5: `calculate_roi`
multiplies by the 396 baseline (line 35 of the source), so the
direct-multiplier convention is not what the code implements. -/
theorem C2_counterexample :
    (calculate_roi (294/100) (1/2) (9615405784/1000000000)).2.1
      ≠ (9615405784/1000000000) * (1/2) := by
  norm_num [calculate_roi]

/-- C2 amended: for every price_a, price_b and multiplier m,
`calculate_roi` computes total_reward = 396 * m (the baseline-396
convention) and locking_value = 396 * m * price_b; the direct-multiplier
convention of section 4.3 is not the one the code uses. -/
theorem C2_amended_baseline396 (p1 p2 m : ℚ) :
    (calculate_roi p1 p2 m).2.1 = 396 * m * p2 := by
  simp [calculate_roi]

/-- C4: whenever the table has a row whose day equals the requested day,
`find_row` returns a matching row — specifically the first matching row
(every row before it fails the exact integer-equality test) — and hence
that row's multiplier, with no interpolation. -/
theorem C4_find_row_first_match (df : List MultiplierRow) (d : Int)
    (r : MultiplierRow) (hmem : r ∈ df) (hday : r.day = d) :
    ∃ pre post r₀, df = pre ++ r₀ :: post ∧
      find_row df d = some r₀ ∧ r₀.day = d ∧
      ∀ x ∈ pre, x.day ≠ d := by
  induction df with
  | nil => cases hmem
  | cons a as ih =>
      by_cases ha : a.day = d
      · refine ⟨[], as, a, rfl, ?_, ha, by simp⟩
        simp [find_row, List.filter_cons, ha]
      · have hr : r ∈ as := by
          rcases List.mem_cons.mp hmem with h | h
          · exact absurd (h ▸ hday) ha
          · exact h
        obtain ⟨pre, post, r₀, hsplit, hfind, hd₀, hpre⟩ := ih hr
        refine ⟨a :: pre, post, r₀, by rw [hsplit]; rfl, ?_, hd₀, ?_⟩
        · simpa [find_row, List.filter_cons, ha] using hfind
        · intro x hx
          rcases List.mem_cons.mp hx with h | h
          · exact h ▸ ha
          · exact hpre x h

/-- C4 witness: on a concrete table with two rows for day 5, the lookup
returns the first of them. -/
theorem C4_find_row_first_match_witness :
    ∃ pre post r₀,
      [(⟨5, 1, 2⟩ : MultiplierRow), ⟨5, 9, 7⟩] = pre ++ r₀ :: post ∧
      find_row [(⟨5, 1, 2⟩ : MultiplierRow), ⟨5, 9, 7⟩] 5 = some r₀ ∧
      r₀.day = 5 ∧ ∀ x ∈ pre, x.day ≠ 5 :=
  C4_find_row_first_match [⟨5, 1, 2⟩, ⟨5, 9, 7⟩] 5 ⟨5, 1, 2⟩
    (by simp) rfl

/-- C5: when no row of the table has the requested day, `find_row`
signals not-found (`none`) and `main` aborts the query: `run_query`
returns `none`, so `calculate_roi` is never reached and no fallback
multiplier is substituted. -/
theorem C5_not_found_aborts (df : List MultiplierRow) (p1 p2 : ℚ)
    (d : Int) (h : ∀ r ∈ df, r.day ≠ d) :
    find_row df d = none ∧ run_query df p1 p2 d = none := by
  have hfilter : df.filter (fun r => r.day == d) = [] := by
    rw [List.filter_eq_nil_iff]
    intro a ha
    simpa using h a ha
  have hfind : find_row df d = none := by
    simp [find_row, hfilter]
  exact ⟨hfind, by simp [run_query, hfind]⟩

/-- C5 witness: a one-row table with day 3 queried at day 7. -/
theorem C5_not_found_aborts_witness :
    find_row [(⟨3, 0, 2⟩ : MultiplierRow)] 7 = none ∧
    run_query [(⟨3, 0, 2⟩ : MultiplierRow)] 1 1 7 = none :=
  C5_not_found_aborts [⟨3, 0, 2⟩] 1 1 7 (by simp)

/-- C6: the verdict is a trichotomy on roi_ratio against exactly 1 with
no tolerance band: above 1 locking wins, below 1 holding wins, and at
exactly 1 the strategies are declared break-even. -/
theorem C6_verdict_trichotomy (r : ℚ) :
    (r > 1 → verdict_of r = Verdict.lockingWins) ∧
    (r < 1 → verdict_of r = Verdict.holdingWins) ∧
    (r = 1 → verdict_of r = Verdict.breakEven) := by
  refine ⟨fun h => ?_, fun h => ?_, fun h => ?_⟩
  · simp [verdict_of, h]
  · simp [verdict_of, h, not_lt_of_lt, asymm h]
  · simp [verdict_of, h]

/-- C6 witness: all three branches, including the exact boundary value
roi_ratio = 1. -/
theorem C6_verdict_trichotomy_witness :
    verdict_of 2 = Verdict.lockingWins ∧
    verdict_of (1/2) = Verdict.holdingWins ∧
    verdict_of 1 = Verdict.breakEven :=
  ⟨(C6_verdict_trichotomy 2).1 (by norm_num),
   (C6_verdict_trichotomy (1/2)).2.1 (by norm_num),
   (C6_verdict_trichotomy 1).2.2 rfl⟩

/-- Helper for C9: on tables related pointwise by `SameButIntCol`, the
row lookup either fails on both or returns rows related by
`SameButIntCol`. -/
theorem find_row_congr (d : Int) :
    ∀ {df1 df2 : List MultiplierRow},
      List.Forall₂ SameButIntCol df1 df2 →
      (find_row df1 d = none ∧ find_row df2 d = none) ∨
      (∃ r1 r2, find_row df1 d = some r1 ∧ find_row df2 d = some r2 ∧
        SameButIntCol r1 r2) := by
  intro df1 df2 h
  induction h with
  | nil => exact Or.inl ⟨rfl, rfl⟩
  | cons hab hrest ih =>
      rename_i a b as bs
      by_cases ha : a.day = d
      · refine Or.inr ⟨a, b, ?_, ?_, hab⟩
        · simp [find_row, List.filter_cons, ha]
        · simp [find_row, List.filter_cons, hab.1 ▸ ha]
      · have hb : ¬b.day = d := fun hbd => ha (hab.1 ▸ hbd)
        have e1 : find_row (a :: as) d = find_row as d := by
          simp [find_row, List.filter_cons, ha]
        have e2 : find_row (b :: bs) d = find_row bs d := by
          simp [find_row, List.filter_cons, hb]
        rw [e1, e2]
        exact ih

/-- C9: the computed outputs never depend on `int_col`: two tables that
agree row-for-row on `day` and `multiplier` (differing only in the
second column) give identical query results — same multiplier, same
holding/locking values, same roi_ratio and same verdict — for every
pair of prices and every day. -/
theorem C9_int_col_noninterference (df1 df2 : List MultiplierRow)
    (p1 p2 : ℚ) (d : Int)
    (h : List.Forall₂ SameButIntCol df1 df2) :
    run_query df1 p1 p2 d = run_query df2 p1 p2 d := by
  rcases find_row_congr d h with ⟨h1, h2⟩ | ⟨r1, r2, h1, h2, _, hm⟩
  · simp [run_query, h1, h2]
  · simp [run_query, h1, h2, hm]

/-- C9 witness: two one-row tables differing only in `int_col` give the
same query result. -/
theorem C9_int_col_noninterference_witness :
    run_query [(⟨3, 0, 2⟩ : MultiplierRow)] 1 1 3
      = run_query [(⟨3, 99, 2⟩ : MultiplierRow)] 1 1 3 :=
  C9_int_col_noninterference [⟨3, 0, 2⟩] [⟨3, 99, 2⟩] 1 1 3
    (List.Forall₂.cons ⟨rfl, rfl⟩ List.Forall₂.nil)

/-- C8 counterexample: a present, well-formed source with 4 columns —
so none of the claim's failure conditions (missing, malformed, fewer
than 3 columns) holds — still makes the loader fail, because the column
rename to exactly 3 names rejects any column count other than 3. -/
theorem C8_counterexample :
    (∃ e, load_multiplier_data (some [["1", "2", "3", "4"]])
      = Except.error e) ∧
    some [["1", "2", "3", "4"]] ≠ (none : Option (List (List String))) ∧
    source_malformed (some [["1", "2", "3", "4"]]) = false ∧
    ¬ source_ncols (some [["1", "2", "3", "4"]]) < 3 := by
  refine ⟨⟨DataLoadError.columnCountMismatch 4, rfl⟩, by simp, rfl, by
    simp [source_ncols, table_ncols]⟩

/-- C8 amended: the loader fails with a `DataLoadError` exactly when the
source is missing, malformed, or has a column count different from 3
(not merely fewer than 3: the rename also rejects more than 3 columns);
on success the columns are renamed to day, int_col, multiplier. -/
theorem C8_load_error_iff (src : Option (List (List String))) :
    ((∃ e, load_multiplier_data src = Except.error e) ↔
      (src = none ∨ source_malformed src = true ∨ source_ncols src ≠ 3)) ∧
    (∀ df names, load_multiplier_data src = Except.ok (df, names) →
      names = ["day", "int_col", "multiplier"]) := by
  match src with
  | none =>
      exact ⟨⟨fun _ => Or.inl rfl,
        fun _ => ⟨DataLoadError.sourceMissing, rfl⟩⟩,
        fun df names h => by simp [load_multiplier_data, read_csv] at h⟩
  | some [] =>
      exact ⟨⟨fun _ => Or.inr (Or.inl rfl),
        fun _ => ⟨DataLoadError.malformed, rfl⟩⟩,
        fun df names h => by simp [load_multiplier_data, read_csv] at h⟩
  | some (r0 :: rs) =>
      by_cases hall : (r0 :: rs).all (fun row => row.length ≤ r0.length)
          = true
      · have hread : read_csv (some (r0 :: rs)) = Except.ok (r0 :: rs) := by
          simp only [read_csv]
          rw [if_pos hall]
        by_cases h3 : r0.length = 3
        · have hload : load_multiplier_data (some (r0 :: rs))
              = Except.ok (r0 :: rs, ["day", "int_col", "multiplier"]) := by
            simp only [load_multiplier_data]
            rw [hread]
            simp only [table_ncols]
            rw [if_pos h3]
          constructor
          · constructor
            · rintro ⟨e, he⟩
              rw [hload] at he
              cases he
            · rintro (h | h | h)
              · exact absurd h (by simp)
              · rw [source_malformed, hall] at h
                cases h
              · exact absurd (by simpa [source_ncols, table_ncols] using h3)
                  h
          · intro df names h
            rw [hload] at h
            exact (congrArg Prod.snd (Except.ok.inj h)).symm
        · have hload : load_multiplier_data (some (r0 :: rs))
              = Except.error (DataLoadError.columnCountMismatch r0.length)
              := by
            simp only [load_multiplier_data]
            rw [hread]
            simp only [table_ncols]
            rw [if_neg h3]
          constructor
          · exact ⟨fun _ => Or.inr (Or.inr (by
              simpa [source_ncols, table_ncols] using h3)),
              fun _ => ⟨DataLoadError.columnCountMismatch r0.length, hload⟩⟩
          · intro df names h
            rw [hload] at h
            cases h
      · have hread : read_csv (some (r0 :: rs))
            = Except.error DataLoadError.malformed := by
          simp only [read_csv]
          rw [if_neg hall]
        have hload : load_multiplier_data (some (r0 :: rs))
            = Except.error DataLoadError.malformed := by
          simp only [load_multiplier_data]
          rw [hread]
        constructor
        · exact ⟨fun _ => Or.inr (Or.inl (by
            simp [source_malformed, hall])),
            fun _ => ⟨DataLoadError.malformed, hload⟩⟩
        · intro df names h
          rw [hload] at h
          cases h

/-- C8 witness: the loader rejects a missing source, and on the
successful load of a well-formed 3-column source the column names are
day, int_col, multiplier. -/
theorem C8_load_error_iff_witness :
    (∃ e, load_multiplier_data (none : Option (List (List String)))
      = Except.error e) ∧
    (["day", "int_col", "multiplier"] : List String)
      = ["day", "int_col", "multiplier"] :=
  ⟨(C8_load_error_iff none).1.mpr (Or.inl rfl),
   (C8_load_error_iff (some [["1", "2", "3"]])).2 [["1", "2", "3"]]
     ["day", "int_col", "multiplier"] rfl⟩

end PrimePrompt
